import Mathlib

/-!
Shallow embedding of the Xeo Wallet Telegram-bot service (`src/main.py`).

The service keeps two in-memory Python dictionaries:
`_pending_connects` (one-time connect codes) and `_deposit_sessions`
(deposit-matching windows).  Both are modelled as association lists
`List (String × _)` in insertion order, which is exactly the iteration
order of a CPython dict.  Wall-clock times and rupee amounts are Python
floats in the source; they are modelled as rationals `ℚ`.  External
effects (HTTP, IMAP, Telegram sends, cross-thread futures) are modelled
by `Except String _` arguments standing for "the call returned normally"
versus "the call raised"; the surrounding control flow is translated
from the source verbatim.
-/

namespace XeoWallet

/-- Lookup with Python-dict semantics on an association list: the first
entry with the given key, if any. -/
def dictGet {α : Type} (k : String) : List (String × α) → Option α
  | [] => none
  | (k', v) :: rest => if k' = k then some v else dictGet k rest

/-- Removal of a key with Python-dict semantics (`dict.pop` / `del`):
the first entry with the given key is dropped. -/
def dictErase {α : Type} (k : String) : List (String × α) → List (String × α)
  | [] => []
  | (k', v) :: rest => if k' = k then rest else (k', v) :: dictErase k rest

/-- Assignment `d[k] = v` with Python-dict semantics: an existing key
keeps its position and gets the new value, a fresh key is appended. -/
def dictInsert {α : Type} (k : String) (v : α) : List (String × α) → List (String × α)
  | [] => [(k, v)]
  | (k', v') :: rest => if k' = k then (k, v) :: rest else (k', v') :: dictInsert k v rest

/-- A Python dict never stores the same key twice; association lists
representing dicts satisfy this predicate. -/
def keysNodup {α : Type} (l : List (String × α)) : Prop :=
  (l.map Prod.fst).Nodup

/-- Value stored in `_pending_connects` by the `/check-id` endpoint
(`main.py` lines 792-796). -/
structure Connect where
  user_id : String
  xid : String
  created_at : ℚ
deriving DecidableEq

/-- Translation of `cleanup_old_codes` (`main.py` lines 72-76): every
entry whose age `now - created_at` exceeds 600 seconds is deleted. -/
def cleanup_old_codes (now : ℚ) (pending : List (String × Connect)) :
    List (String × Connect) :=
  pending.filter (fun p => !decide (now - p.2.created_at > 600))

/-- Value stored in `_deposit_sessions` (`main.py` lines 769-776); the
`sender_name` field is absent (`none`) until the email-matching pass
sets it. -/
structure Session where
  user_id : String
  xid : String
  amount : ℚ
  telegram_id : Option String
  expires_at : ℚ
  matched : Bool
  sender_name : Option String
deriving DecidableEq

/-- The session record built by the `/start_deposit_session` endpoint
(`main.py` lines 769-776): unmatched, expiring 300 seconds from now. -/
def new_deposit_session (now : ℚ) (user_id xid : String) (amount : ℚ)
    (telegram_id : Option String) : Session :=
  { user_id := user_id
    xid := xid
    amount := amount
    telegram_id := telegram_id
    expires_at := now + 300
    matched := false
    sender_name := none }

/-- The expiry sweep at the top of `email_watcher_loop` (`main.py` lines
440-446): it pops every session with `now > expires_at` that is not
matched. -/
def expire_sweep (now : ℚ) (sessions : List (String × Session)) :
    List (String × Session) :=
  sessions.filter (fun p => !(decide (now > p.2.expires_at) && !p.2.matched))

/-- A session is eligible for a parsed email amount `a` when it is not
yet matched and its requested amount is within the 0.5-rupee tolerance
(`main.py` lines 252-254). -/
def eligible (a : ℚ) (s : Session) : Prop :=
  s.matched = false ∧ |s.amount - a| < 1/2

instance (a : ℚ) (s : Session) : Decidable (eligible a s) :=
  decidable_of_iff (s.matched = false ∧ |s.amount - a| < 1/2) Iff.rfl

/-- The in-place update performed when a session matches an email
(`main.py` lines 255-256): `matched` is set and the sender name is
recorded, defaulting to "Unknown". -/
def mark_matched (sender : Option String) (s : Session) : Session :=
  { s with matched := true, sender_name := some (sender.getD "Unknown") }

/-- The inner session loop of `check_emails_for_sessions` (`main.py`
lines 251-268) for one parsed email amount: already-matched sessions
are skipped, the first session within tolerance is marked matched and
the loop breaks; all other entries are left untouched. -/
def matchEmail (a : ℚ) (sender : Option String) :
    List (String × Session) → List (String × Session)
  | [] => []
  | (k, s) :: rest =>
    if eligible a s then (k, mark_matched sender s) :: rest
    else (k, s) :: matchEmail a sender rest

/-- Translation of `check_emails_for_sessions` (`main.py` lines
234-268).  Each element of `emails` is the `parse_payment_email` output
(amount, sender name) of one fetched email.  The Python guard
`if not amount: continue` skips an email whose amount failed to parse
(`none`) or parsed as the falsy float `0.0`. -/
def check_emails_for_sessions (emails : List (Option ℚ × Option String))
    (sessions : List (String × Session)) : List (String × Session) :=
  emails.foldl
    (fun acc e =>
      match e.1 with
      | none => acc
      | some a => if a = 0 then acc else matchEmail a e.2 acc)
    sessions

/-- Replies the `/start` command handler can produce on the
code-redemption path (`main.py` lines 509-555). -/
inductive StartReply where
  | connected (xid : String)
  | connectionFailed
  | expiredOrUsed
  | welcome
deriving DecidableEq

/-- Translation of the `/start` command handler (`main.py` lines
509-555).  `arg` is the optional deep-link argument; `saveOk` is the
outcome of the awaited `save_telegram_id_to_supabase` call.  With an
argument the handler first runs `cleanup_old_codes`, then pops the code
and attempts the backend save, replying with the expired/already-used
message when the code is absent. -/
def start (now : ℚ) (arg : Option String) (pending : List (String × Connect))
    (saveOk : Bool) : StartReply × List (String × Connect) :=
  match arg with
  | none => (.welcome, pending)
  | some code =>
    let p := cleanup_old_codes now pending
    match dictGet code p with
    | some entry =>
      let p' := dictErase code p
      if saveOk then (.connected entry.xid, p') else (.connectionFailed, p')
    | none => (.expiredOrUsed, p)

/-- Translation of `supabase_request` (`main.py` lines 91-116): `none`
when the env vars are missing, and the whole HTTP interaction sits in a
try/except returning `none` on any exception.  `α` abstracts the parsed
JSON body of a successful response. -/
def supabase_request {α : Type} (envOk : Bool) (http : Except String α) :
    Option α :=
  if !envOk then none
  else
    match http with
    | .ok v => some v
    | .error _ => none

/-- Translation of `supabase_rpc` (`main.py` lines 118-139): same guard
structure as `supabase_request`. -/
def supabase_rpc {α : Type} (envOk : Bool) (http : Except String α) :
    Option α :=
  if !envOk then none
  else
    match http with
    | .ok v => some v
    | .error _ => none

/-- A fetched email as assembled by `fetch_recent_famapp_emails`
(`main.py` lines 201-205). -/
structure EmailMsg where
  subject : String
  body : String
deriving DecidableEq

/-- Translation of `fetch_recent_famapp_emails` (`main.py` lines
165-212): the whole IMAP interaction sits in a try/except that returns
the empty list on any exception.  `imap` stands for the IMAP session
producing the fetched messages; `since_minutes` is the search window
(default 6 at line 165, and the watcher calls it with 6 at line 239). -/
def fetch_recent_famapp_emails (since_minutes : ℕ)
    (imap : Except String (List EmailMsg)) : List EmailMsg :=
  match imap with
  | .ok msgs => msgs
  | .error _ => []

/-- Default of the `since_minutes` parameter of
`fetch_recent_famapp_emails` (`main.py` line 165). -/
def FETCH_SINCE_MINUTES_DEFAULT : ℕ := 6

/-- The `since_minutes` argument passed by `check_emails_for_sessions`
(`main.py` line 239). -/
def CHECK_EMAILS_SINCE_MINUTES : ℕ := 6

/-- Timeout of `future.result` for the admin-approval send inside the
email-matching pass (`main.py` line 265). -/
def APPROVAL_FUTURE_TIMEOUT : ℕ := 15

/-- Timeout of `future.result` in `send_transaction_notification`
(`main.py` line 655). -/
def NOTIFY_FUTURE_TIMEOUT : ℕ := 15

/-- Timeout of `future.result` in `send_admin_message` (`main.py`
line 681). -/
def ADMIN_FUTURE_TIMEOUT : ℕ := 15

/-- Timeout of `future.result` in the `/check_channels` endpoint
(`main.py` line 817). -/
def CHECK_CHANNELS_FUTURE_TIMEOUT : ℕ := 15

/-- Timeout of `future.result` in the `/resolve_chat_id` endpoint
(`main.py` line 844). -/
def RESOLVE_CHAT_FUTURE_TIMEOUT : ℕ := 15

/-- Translation of `send_transaction_notification` (`main.py` lines
650-658): the coroutine is submitted to the bot loop and its future is
awaited with a 15-second timeout; any exception (including the timeout)
yields `false`.  `future t` is the outcome of `future.result(timeout=t)`. -/
def send_transaction_notification (future : ℕ → Except String Bool) : Bool :=
  match future NOTIFY_FUTURE_TIMEOUT with
  | .ok b => b
  | .error _ => false

/-- Translation of `send_admin_message` (`main.py` lines 676-684): same
structure as `send_transaction_notification`. -/
def send_admin_message (future : ℕ → Except String Bool) : Bool :=
  match future ADMIN_FUTURE_TIMEOUT with
  | .ok b => b
  | .error _ => false

/-- Responses of the `/notify_transaction` endpoint (`main.py` lines
698-713). -/
inductive NotifyResp where
  | botFailed
  | noData
  | missingFields (fs : List String)
  | ok
deriving DecidableEq

/-- HTTP status code attached to each `/notify_transaction` response. -/
def notify_status : NotifyResp → ℕ
  | .botFailed => 503
  | .noData => 400
  | .missingFields _ => 400
  | .ok => 200

/-- Translation of the `/notify_transaction` endpoint (`main.py` lines
698-713).  `data` is the parsed JSON body as a key/value list (`none`
for an absent or null body).  The Python guard `if not data` also
catches the falsy empty dict, so an empty body yields the generic
"No data provided" error rather than the missing-field list. -/
def notify_transaction (botReady : Bool)
    (data : Option (List (String × String))) : NotifyResp :=
  if !botReady then .botFailed
  else
    match data with
    | none => .noData
    | some kvs =>
      if kvs = [] then .noData
      else
        let missing := ["user_id", "type", "amount", "status"].filter
          (fun f => (dictGet f kvs).isNone)
        if missing = [] then .ok else .missingFields missing

/-- Request body of `/start_deposit_session` (`main.py` lines 763-773).
Each required key is an `Option` so that a body missing it is
representable; `telegram_id` is read with `data.get` and may be absent. -/
structure DepositReq where
  request_id : Option String
  user_id : Option String
  xid : Option String
  amount : Option ℚ
  telegram_id : Option String
deriving DecidableEq

/-- Responses of the `/start_deposit_session` endpoint (`main.py` lines
749-779). -/
inductive DepositResp where
  | botFailed
  | noData
  | missingFields (fs : List String)
  | ok (expires_in : ℕ)
deriving DecidableEq

/-- Translation of the `/start_deposit_session` endpoint (`main.py`
lines 749-779).  `data = none` models an absent or falsy JSON body.
With all required fields present the session record is written into
`_deposit_sessions` under `request_id`, unconditionally overwriting any
existing session with that id. -/
def start_deposit_session (botReady : Bool) (now : ℚ)
    (data : Option DepositReq) (sessions : List (String × Session)) :
    DepositResp × List (String × Session) :=
  if !botReady then (.botFailed, sessions)
  else
    match data with
    | none => (.noData, sessions)
    | some d =>
      match d.request_id, d.user_id, d.xid, d.amount with
      | some rid, some uid, some xid, some amt =>
        (.ok 300,
          dictInsert rid (new_deposit_session now uid xid amt d.telegram_id)
            sessions)
      | _, _, _, _ =>
        (.missingFields
          ((if d.request_id.isNone then ["request_id"] else []) ++
           (if d.user_id.isNone then ["user_id"] else []) ++
           (if d.xid.isNone then ["xid"] else []) ++
           (if d.amount.isNone then ["amount"] else [])),
         sessions)

/-- Boolean test that `pat` occurs at the head of `l`, used to model
Python `str.startswith` and substring search over character lists. -/
def listIsPre : List Char → List Char → Bool
  | [], _ => true
  | _ :: _, [] => false
  | a :: as, b :: bs => a == b && listIsPre as bs

/-- Boolean test that `pat` occurs somewhere in `l`, modelling Python
`pat in s`. -/
def listIsSub (pat : List Char) : List Char → Bool
  | [] => pat.isEmpty
  | c :: rest => listIsPre pat (c :: rest) || listIsSub pat rest

/-- Characters after the first occurrence of `pat`, modelling the tail
after a `str.split(pat)` hit (empty when `pat` does not occur). -/
def afterFirst (pat : List Char) : List Char → List Char
  | [] => []
  | c :: rest =>
    if listIsPre pat (c :: rest) then (c :: rest).drop pat.length
    else afterFirst pat rest

/-- Characters up to (excluding) the next occurrence of `pat`. -/
def upToNext (pat : List Char) : List Char → List Char
  | [] => []
  | c :: rest =>
    if listIsPre pat (c :: rest) then [] else c :: upToNext pat rest

/-- Second element of Python `s.split(pat)` when `pat` occurs in `s`:
the text between the first occurrence and the next one (or the end). -/
def splitSecond (pat l : List Char) : List Char :=
  upToNext pat (afterFirst pat l)

/-- Python `str.strip()` (no argument): whitespace removed from both
ends. -/
def pyStrip (s : String) : String :=
  ⟨((s.data.dropWhile Char.isWhitespace).reverse.dropWhile
      Char.isWhitespace).reverse⟩

/-- Python `str.strip('/')`: slashes removed from both ends. -/
def stripSlashChars (l : List Char) : List Char :=
  ((l.dropWhile (fun c => c == '/')).reverse.dropWhile
      (fun c => c == '/')).reverse

/-- Python `str.isdigit()` on the result of `lstrip('-')`: nonempty and
all digits (ASCII approximation of the unicode predicate). -/
def isDigitStr (l : List Char) : Bool :=
  !l.isEmpty && l.all Char.isDigit

/-- Python `str.lower()`, modelled character-wise. -/
def strLower (s : String) : String :=
  ⟨s.data.map Char.toLower⟩

/-- Translation of `resolve_channel_id` (`main.py` lines 460-471). -/
def resolve_channel_id (channel : String) : Option String :=
  let ch := pyStrip channel
  if isDigitStr (ch.data.dropWhile (fun c => c == '-')) then some ch
  else if listIsPre ['@'] ch.data then some ch
  else if !listIsPre "http".data ch.data && !listIsPre "t.me".data ch.data then
    some ("@" ++ ch)
  else if listIsSub "t.me/".data ch.data && !listIsSub "/+".data ch.data then
    some ("@" ++ String.mk (stripSlashChars (splitSecond "t.me/".data ch.data)))
  else none

/-- Error-message substrings that make a failed `get_chat_member` call
count as "bot_not_admin" (`main.py` line 484). -/
def bot_not_admin_markers : List String :=
  ["chat not found", "not enough rights", "have no rights", "forbidden",
   "bot is not a member", "user not found"]

/-- Translation of `check_user_in_channel` (`main.py` lines 473-486).
`getChatMember` is the awaited `bot.get_chat_member` call: `.ok st` is
a normal return with member status `st`, `.error e` a raised exception
with message `e`. -/
def check_user_in_channel (channel : String)
    (getChatMember : Except String String) : String :=
  match resolve_channel_id channel with
  | none => "bot_not_admin"
  | some _ =>
    match getChatMember with
    | .ok st =>
      if st == "member" || st == "administrator" || st == "creator" then
        "joined"
      else "not_joined"
    | .error e =>
      if bot_not_admin_markers.any (fun x => listIsSub x.data (strLower e).data)
      then "bot_not_admin"
      else "not_joined"

/-- A key is absent from a dict exactly when `dictGet` returns `none`. -/
theorem dictGet_eq_none_iff {α : Type} (k : String) (l : List (String × α)) :
    dictGet k l = none ↔ k ∉ l.map Prod.fst := by
  induction l with
  | nil => simp [dictGet]
  | cons hd tl ih =>
    obtain ⟨k', v⟩ := hd
    by_cases h : k' = k
    · subst h
      simp [dictGet]
    · simp only [dictGet, if_neg h, List.map_cons, List.mem_cons, not_or, ih]
      constructor
      · intro hn
        exact ⟨fun hk => h hk.symm, hn⟩
      · intro hn
        exact hn.2

/-- Filtering cannot make an absent key appear. -/
theorem dictGet_none_filter {α : Type} (k : String) (p : String × α → Bool)
    (l : List (String × α)) :
    dictGet k l = none → dictGet k (l.filter p) = none := by
  intro h
  rw [dictGet_eq_none_iff] at h ⊢
  intro hmem
  apply h
  obtain ⟨q, hq, hfst⟩ := List.mem_map.mp hmem
  exact List.mem_map.mpr ⟨q, List.mem_of_mem_filter hq, hfst⟩

/-- Filtering a dict with unique keys removes a present key entirely
when its entry fails the predicate. -/
theorem dictGet_filter_none {α : Type} {k : String} {v : α}
    {p : String × α → Bool} {l : List (String × α)} :
    keysNodup l → dictGet k l = some v → p (k, v) = false →
    dictGet k (l.filter p) = none := by
  induction l with
  | nil => intro _ hget _; simp [dictGet] at hget
  | cons hd tl ih =>
    obtain ⟨k', v'⟩ := hd
    intro hnd hget hp
    have hnd2 := hnd
    unfold keysNodup at hnd2
    rw [List.map_cons, List.nodup_cons] at hnd2
    obtain ⟨hk', hndtl⟩ := hnd2
    by_cases h : k' = k
    · subst h
      have hv : v' = v := by
        simpa [dictGet] using hget
      subst hv
      rw [List.filter_cons, if_neg (by simp [hp])]
      exact dictGet_none_filter k' p tl ((dictGet_eq_none_iff k' tl).mpr hk')
    · have hget' : dictGet k tl = some v := by
        simpa [dictGet, if_neg h] using hget
      rw [List.filter_cons]
      by_cases hpk : p (k', v') = true
      · rw [if_pos hpk, dictGet, if_neg h]
        exact ih hndtl hget' hp
      · rw [if_neg hpk]
        exact ih hndtl hget' hp

/-- Filtering preserves key uniqueness. -/
theorem keysNodup_filter {α : Type} (p : String × α → Bool)
    (l : List (String × α)) : keysNodup l → keysNodup (l.filter p) := by
  intro h
  exact h.sublist ((List.filter_sublist l).map Prod.fst)

/-- Erasing a key from a dict with unique keys removes it entirely. -/
theorem dictGet_erase_self {α : Type} (k : String) (l : List (String × α)) :
    keysNodup l → dictGet k (dictErase k l) = none := by
  induction l with
  | nil => intro _; simp [dictErase, dictGet]
  | cons hd tl ih =>
    obtain ⟨k', v⟩ := hd
    intro hnd
    have hnd2 := hnd
    unfold keysNodup at hnd2
    rw [List.map_cons, List.nodup_cons] at hnd2
    obtain ⟨hk', hndtl⟩ := hnd2
    by_cases h : k' = k
    · subst h
      simp only [dictErase, if_pos rfl]
      exact (dictGet_eq_none_iff k' tl).mpr hk'
    · simp only [dictErase, if_neg h, dictGet, if_neg h]
      exact ih hndtl

/-- Assignment stores the assigned value under the assigned key. -/
theorem dictGet_insert_self {α : Type} (k : String) (v : α)
    (l : List (String × α)) : dictGet k (dictInsert k v l) = some v := by
  induction l with
  | nil => simp [dictInsert, dictGet]
  | cons hd tl ih =>
    obtain ⟨k', v'⟩ := hd
    by_cases h : k' = k
    · subst h
      simp [dictInsert, dictGet]
    · simp only [dictInsert, if_neg h, dictGet, ih]

/-- A session that is already matched is skipped by the inner session
loop: its entry survives one email unchanged. -/
theorem mem_matchEmail_of_matched (a : ℚ) (snd : Option String) (k : String)
    (s : Session) : ∀ (l : List (String × Session)),
    (k, s) ∈ l → s.matched = true → (k, s) ∈ matchEmail a snd l := by
  intro l
  induction l with
  | nil => intro h _; exact absurd h (List.not_mem_nil _)
  | cons hd tl ih =>
    obtain ⟨k', s'⟩ := hd
    intro hmem hm
    rcases List.mem_cons.mp hmem with heq | htl
    · injection heq with hk hs
      subst hk
      subst hs
      have hne : ¬ eligible a s := fun he => by simpa [hm] using he.1
      unfold matchEmail
      rw [if_neg hne]
      exact List.mem_cons_self _ _
    · unfold matchEmail
      by_cases he : eligible a s'
      · rw [if_pos he]
        exact List.mem_cons_of_mem _ htl
      · rw [if_neg he]
        exact List.mem_cons_of_mem _ (ih htl hm)

/-- A session that is already matched survives the whole email-matching
pass unchanged. -/
theorem mem_check_emails_of_matched (k : String) (s : Session) :
    ∀ (emails : List (Option ℚ × Option String))
      (l : List (String × Session)),
    (k, s) ∈ l → s.matched = true →
    (k, s) ∈ check_emails_for_sessions emails l := by
  intro emails
  induction emails with
  | nil =>
    intro l h _
    simpa [check_emails_for_sessions] using h
  | cons e es ih =>
    intro l hmem hm
    have hstep : (k, s) ∈ (match e.1 with
        | none => l
        | some a => if a = 0 then l else matchEmail a e.2 l) := by
      rcases e with ⟨oa, snd⟩
      cases oa with
      | none => exact hmem
      | some a =>
        show (k, s) ∈ (if a = 0 then l else matchEmail a snd l)
        by_cases h0 : a = 0
        · rw [if_pos h0]
          exact hmem
        · rw [if_neg h0]
          exact mem_matchEmail_of_matched a snd k s l hmem hm
    exact ih _ hstep hm

/-- When no session is eligible for an email amount, the inner session
loop is the identity. -/
theorem matchEmail_of_no_eligible (a : ℚ) (snd : Option String) :
    ∀ (l : List (String × Session)),
    (∀ p ∈ l, ¬ eligible a p.2) → matchEmail a snd l = l := by
  intro l
  induction l with
  | nil => intro _; rfl
  | cons hd tl ih =>
    obtain ⟨k, s⟩ := hd
    intro hno
    have h1 : ¬ eligible a s := hno (k, s) (List.mem_cons_self _ _)
    unfold matchEmail
    rw [if_neg h1, ih (fun p hp => hno p (List.mem_cons_of_mem _ hp))]

/-- The inner session loop marks exactly the first eligible session in
iteration order and leaves every other entry untouched. -/
theorem matchEmail_first (a : ℚ) (snd : Option String) (k : String)
    (s : Session) (l₂ : List (String × Session)) :
    ∀ (l₁ : List (String × Session)),
    (∀ p ∈ l₁, ¬ eligible a p.2) → eligible a s →
    matchEmail a snd (l₁ ++ (k, s) :: l₂) =
      l₁ ++ (k, mark_matched snd s) :: l₂ := by
  intro l₁
  induction l₁ with
  | nil =>
    intro _ he
    simp only [List.nil_append]
    unfold matchEmail
    rw [if_pos he]
  | cons hd tl ih =>
    obtain ⟨k', s'⟩ := hd
    intro hno he
    have h1 : ¬ eligible a s' := hno (k', s') (List.mem_cons_self _ _)
    simp only [List.cons_append]
    unfold matchEmail
    rw [if_neg h1, ih (fun p hp => hno p (List.mem_cons_of_mem _ hp)) he]

/-- Processing a single email with a nonzero parsed amount is exactly
one run of the inner session loop. -/
theorem check_emails_single (a : ℚ) (snd : Option String)
    (l : List (String × Session)) (ha : a ≠ 0) :
    check_emails_for_sessions [(some a, snd)] l = matchEmail a snd l := by
  simp [check_emails_for_sessions, ha]

/-- Concrete session that is already matched (used as a test vector). -/
def sessionMatched : Session :=
  { user_id := "u1"
    xid := "X1"
    amount := 50
    telegram_id := none
    expires_at := 100
    matched := true
    sender_name := some "KUSUM BHAGAT" }

/-- Concrete unmatched session awaiting an email (used as a test
vector). -/
def sessionFresh : Session :=
  { user_id := "u2"
    xid := "X2"
    amount := 100
    telegram_id := some "77"
    expires_at := 500
    matched := false
    sender_name := none }

/-- Concrete unmatched session with a zero requested amount (used as a
test vector). -/
def sessionZero : Session :=
  { user_id := "u3"
    xid := "X3"
    amount := 0
    telegram_id := none
    expires_at := 500
    matched := false
    sender_name := none }

/-- Concrete connect-code entry created at time 0 (used as a test
vector). -/
def connectOld : Connect :=
  { user_id := "u4", xid := "X4", created_at := 0 }

/-- C1: a deposit session's `matched` flag goes from `false` to `true`
at most once.  The email-matching pass leaves an already-matched
session's entry exactly as it was (it is skipped), the expiry sweep
only deletes entries and never rewrites one, and a freshly created
session starts with `matched = false`; no operation on an existing
session record ever writes `matched := false`. -/
theorem deposit_matched_monotone (emails : List (Option ℚ × Option String))
    (l : List (String × Session)) (k : String) (s : Session) (now : ℚ)
    (u x : String) (amt : ℚ) (t : Option String)
    (hmem : (k, s) ∈ l) (hm : s.matched = true) :
    (k, s) ∈ check_emails_for_sessions emails l ∧
    (∀ p ∈ expire_sweep now l, p ∈ l) ∧
    (new_deposit_session now u x amt t).matched = false := by
  refine ⟨mem_check_emails_of_matched k s emails l hmem hm, ?_, rfl⟩
  intro p hp
  exact List.mem_of_mem_filter hp

/-- Witness for C1 at a concrete matched session: one matching-pass run
over a tolerance-compatible email leaves the matched entry in place,
and a new session starts unmatched. -/
theorem deposit_matched_monotone_witness :
    ("r1", sessionMatched) ∈
      check_emails_for_sessions [(some 50, some "A")] [("r1", sessionMatched)] ∧
    (new_deposit_session 0 "u" "x" 10 none).matched = false := by
  have h := deposit_matched_monotone [(some 50, some "A")]
    [("r1", sessionMatched)] "r1" sessionMatched 0 "u" "x" 10 none
    (List.mem_cons_self _ _) rfl
  exact ⟨h.1, h.2.2⟩

/-- C2 counterexample: a session whose `expires_at` has passed but whose
`matched` flag is set is NOT removed by the watcher loop's expiry sweep,
so not every deposit session past its expiry is deleted. -/
theorem sweep_keeps_matched_expired_session :
    (1000 : ℚ) > sessionMatched.expires_at ∧
    expire_sweep 1000 [("r1", sessionMatched)] = [("r1", sessionMatched)] := by
  constructor
  · norm_num [sessionMatched]
  · norm_num [expire_sweep, sessionMatched, List.filter]

/-- C2 (amended): the age-based sweeps delete every over-age entry of
the kind they target: a connect code whose age exceeds 600 seconds is
removed by `cleanup_old_codes`, and a deposit session whose
`expires_at` has passed and which is still unmatched is removed by the
watcher loop's expiry sweep (matched sessions are exempt and wait for
admin action). -/
theorem ttl_sweeps_remove_expired (now : ℚ)
    (pending : List (String × Connect)) (l : List (String × Session))
    (k c : String) (v : Connect) (s : Session)
    (hv : (k, v) ∈ pending) (hage : now - v.created_at > 600)
    (hs : (c, s) ∈ l) (he : now > s.expires_at) (hm : s.matched = false) :
    (k, v) ∉ cleanup_old_codes now pending ∧ (c, s) ∉ expire_sweep now l := by
  constructor
  · intro hmem
    have h2 := (List.mem_filter.mp hmem).2
    simp only [hage, decide_eq_true_eq, decide_eq_true hage, Bool.not_true] at h2
    exact Bool.false_ne_true h2
  · intro hmem
    have h2 := (List.mem_filter.mp hmem).2
    rw [hm, decide_eq_true he] at h2
    simp at h2

/-- Witness for C2 at concrete over-age entries: both sweeps delete
them. -/
theorem ttl_sweeps_remove_expired_witness :
    ("c1", connectOld) ∉ cleanup_old_codes 1000 [("c1", connectOld)] ∧
    ("r2", sessionFresh) ∉ expire_sweep 1000 [("r2", sessionFresh)] := by
  exact ttl_sweeps_remove_expired 1000 [("c1", connectOld)]
    [("r2", sessionFresh)] "c1" "r2" connectOld sessionFresh
    (List.mem_cons_self _ _) (by norm_num [connectOld])
    (List.mem_cons_self _ _) (by norm_num [sessionFresh]) rfl

/-- C3 counterexample: an email whose parsed amount is 0 is skipped by
the Python truthiness guard `if not amount`, so an unmatched session
within the 0.5 tolerance of amount 0 is still not matched — the
claimed "if and only if" fails at amount 0. -/
theorem email_match_zero_amount_skipped :
    sessionZero.matched = false ∧ |sessionZero.amount - 0| < 1/2 ∧
    check_emails_for_sessions [(some 0, some "S")] [("r3", sessionZero)] =
      [("r3", sessionZero)] := by
  refine ⟨rfl, by norm_num [sessionZero], ?_⟩
  simp [check_emails_for_sessions]

/-- C3 (amended): for an email whose parsed amount `a` is nonzero (a
zero or unparsable amount is skipped by the falsy-value guard), the
matching pass marks exactly the first session in iteration order that
is unmatched and within the 0.5-rupee tolerance, recording the sender
name; if no session qualifies, the pass changes nothing, so each email
is matched to at most one session. -/
theorem email_match_first_eligible (a : ℚ) (snd : Option String)
    (l l₁ l₂ : List (String × Session)) (k : String) (s : Session)
    (ha : a ≠ 0) :
    ((∀ p ∈ l, ¬ eligible a p.2) →
      check_emails_for_sessions [(some a, snd)] l = l) ∧
    ((∀ p ∈ l₁, ¬ eligible a p.2) → eligible a s →
      check_emails_for_sessions [(some a, snd)] (l₁ ++ (k, s) :: l₂) =
        l₁ ++ (k, mark_matched snd s) :: l₂) := by
  constructor
  · intro hno
    rw [check_emails_single a snd l ha, matchEmail_of_no_eligible a snd l hno]
  · intro hno he
    rw [check_emails_single a snd _ ha, matchEmail_first a snd k s l₂ l₁ hno he]

/-- Witness for C3 at a concrete eligible session: the email of amount
100 marks the session requesting 100 as matched with the parsed sender
name. -/
theorem email_match_first_eligible_witness :
    check_emails_for_sessions [(some 100, some "KUSUM BHAGAT")]
      [("r2", sessionFresh)] =
      [("r2", mark_matched (some "KUSUM BHAGAT") sessionFresh)] := by
  have h := email_match_first_eligible 100 (some "KUSUM BHAGAT")
    [] [] [] "r2" sessionFresh (by norm_num)
  simpa using h.2 (by simp) ⟨rfl, by norm_num [sessionFresh]⟩

/-- C4: a connect code redeemed more than 600 seconds after its
creation is rejected: `cleanup_old_codes` (run at the start of the
`/start` handler) removes it, so the handler takes the
expired/already-used branch and no account is linked. -/
theorem expired_connect_code_rejected (now : ℚ) (code : String)
    (pending : List (String × Connect)) (entry : Connect) (saveOk : Bool)
    (hnd : keysNodup pending) (hget : dictGet code pending = some entry)
    (hage : now - entry.created_at > 600) :
    start now (some code) pending saveOk =
      (.expiredOrUsed, cleanup_old_codes now pending) := by
  have hnone : dictGet code (cleanup_old_codes now pending) = none := by
    apply dictGet_filter_none hnd hget
    simp [hage]
  simp [start, hnone]

/-- Witness for C4 at a concrete code created at time 0 and redeemed at
time 601. -/
theorem expired_connect_code_rejected_witness :
    start 601 (some "abc") [("abc", connectOld)] true =
      (.expiredOrUsed, cleanup_old_codes 601 [("abc", connectOld)]) := by
  exact expired_connect_code_rejected 601 "abc" [("abc", connectOld)]
    connectOld true (by simp [keysNodup]) rfl (by norm_num [connectOld])

/-- C5: every external call is wrapped in a broad exception guard that
returns a failure sentinel instead of propagating: a raised HTTP call
makes `supabase_request` and `supabase_rpc` return `none`, a raised
IMAP interaction makes `fetch_recent_famapp_emails` return the empty
list, and a raised or timed-out cross-thread send makes
`send_transaction_notification` and `send_admin_message` return
`false`. -/
theorem external_call_failure_sentinels (α : Type) (e : String)
    (envOk : Bool) (n : ℕ) :
    supabase_request envOk (Except.error e : Except String α) = none ∧
    supabase_rpc envOk (Except.error e : Except String α) = none ∧
    fetch_recent_famapp_emails n (Except.error e) = [] ∧
    send_transaction_notification (fun _ => Except.error e) = false ∧
    send_admin_message (fun _ => Except.error e) = false := by
  refine ⟨?_, ?_, rfl, rfl, rfl⟩
  · cases envOk <;> rfl
  · cases envOk <;> rfl

/-- C6: `check_user_in_channel` always produces one of the three
strings "joined", "not_joined", "bot_not_admin"; and when the
`get_chat_member` call raises on a resolvable channel, the result is
"bot_not_admin" exactly when the lowercased error message contains one
of the six recognised substrings, and "not_joined" otherwise. -/
theorem channel_check_outcomes (ch e cid : String)
    (hres : resolve_channel_id ch = some cid) :
    (∀ (c : String) (g : Except String String),
      check_user_in_channel c g = "joined" ∨
      check_user_in_channel c g = "not_joined" ∨
      check_user_in_channel c g = "bot_not_admin") ∧
    (check_user_in_channel ch (Except.error e) = "bot_not_admin" ↔
      bot_not_admin_markers.any
        (fun x => listIsSub x.data (strLower e).data) = true) ∧
    (check_user_in_channel ch (Except.error e) = "not_joined" ↔
      bot_not_admin_markers.any
        (fun x => listIsSub x.data (strLower e).data) = false) := by
  refine ⟨?_, ?_, ?_⟩
  · intro c g
    cases hr : resolve_channel_id c with
    | none =>
      right; right
      simp [check_user_in_channel, hr]
    | some cid' =>
      cases g with
      | ok st =>
        by_cases hst :
            (st == "member" || st == "administrator" || st == "creator") = true
        · left
          simp [check_user_in_channel, hr, hst]
        · right; left
          simp [check_user_in_channel, hr, hst]
      | error msg =>
        by_cases hmk : bot_not_admin_markers.any
            (fun x => listIsSub x.data (strLower msg).data) = true
        · right; right
          simp [check_user_in_channel, hr, hmk]
        · right; left
          simp [check_user_in_channel, hr, hmk]
  · by_cases hmk : bot_not_admin_markers.any
        (fun x => listIsSub x.data (strLower e).data) = true
    · apply iff_of_true
      · simp [check_user_in_channel, hres, hmk]
      · exact hmk
    · apply iff_of_false
      · simp [check_user_in_channel, hres, hmk]
      · exact hmk
  · by_cases hmk : bot_not_admin_markers.any
        (fun x => listIsSub x.data (strLower e).data) = true
    · apply iff_of_false
      · simp [check_user_in_channel, hres, hmk]
      · simp [hmk]
    · apply iff_of_true
      · simp [check_user_in_channel, hres, hmk]
      · simp only [Bool.not_eq_true] at hmk
        exact hmk

/-- Witness for C6 at a concrete resolvable channel and a "Forbidden"
error message. -/
theorem channel_check_outcomes_witness :
    check_user_in_channel "@xeo" (Except.error "Forbidden: bot was kicked") =
      "bot_not_admin" := by
  have h := channel_check_outcomes "@xeo" "Forbidden: bot was kicked" "@xeo"
    (by decide)
  exact h.2.1.mpr (by decide)

/-- C7: the wall-clock constants are as the spec names them: all five
`future.result` calls into the bot's event loop use a 15-second
timeout, a deposit session is created expiring 300 seconds in the
future, the email search window is 6 minutes (both the default and the
watcher's argument), and a connect code survives `cleanup_old_codes`
exactly while its age is at most 600 seconds. -/
theorem fixed_timeout_constants :
    NOTIFY_FUTURE_TIMEOUT = 15 ∧ ADMIN_FUTURE_TIMEOUT = 15 ∧
    APPROVAL_FUTURE_TIMEOUT = 15 ∧ CHECK_CHANNELS_FUTURE_TIMEOUT = 15 ∧
    RESOLVE_CHAT_FUTURE_TIMEOUT = 15 ∧
    (∀ (now : ℚ) (u x : String) (amt : ℚ) (t : Option String),
      (new_deposit_session now u x amt t).expires_at = now + 300) ∧
    CHECK_EMAILS_SINCE_MINUTES = 6 ∧ FETCH_SINCE_MINUTES_DEFAULT = 6 ∧
    (∀ (f : ℕ → Except String Bool),
      send_transaction_notification f =
        (match f 15 with | .ok b => b | .error _ => false)) ∧
    (∀ (f : ℕ → Except String Bool),
      send_admin_message f =
        (match f 15 with | .ok b => b | .error _ => false)) ∧
    (∀ (now : ℚ) (pending : List (String × Connect)) (p : String × Connect),
      p ∈ cleanup_old_codes now pending ↔
        p ∈ pending ∧ now - p.2.created_at ≤ 600) := by
  refine ⟨rfl, rfl, rfl, rfl, rfl, fun _ _ _ _ _ => rfl, rfl, rfl,
    fun _ => rfl, fun _ => rfl, ?_⟩
  intro now pending p
  rw [cleanup_old_codes, List.mem_filter]
  simp [not_lt]

/-- C8 counterexample: the empty JSON body is missing all four required
fields, yet `/notify_transaction` replies with the generic
"No data provided" 400 error, which does not name the missing fields. -/
theorem notify_transaction_empty_body :
    notify_transaction true (some []) = NotifyResp.noData ∧
    notify_status NotifyResp.noData = 400 ∧
    NotifyResp.noData ≠
      NotifyResp.missingFields ["user_id", "type", "amount", "status"] := by
  refine ⟨rfl, rfl, by decide⟩

/-- C8 (amended): with the bot ready, a body containing all of
`user_id`, `type`, `amount` and `status` gets HTTP 200 with the ok
response; a non-empty body missing some of those fields gets HTTP 400
naming exactly the missing fields (an empty or absent body instead gets
the generic "No data provided" 400 error). -/
theorem notify_transaction_contract (kvs : List (String × String))
    (hne : kvs ≠ []) :
    ((["user_id", "type", "amount", "status"].all
        (fun f => (dictGet f kvs).isSome)) = true →
      notify_transaction true (some kvs) = NotifyResp.ok ∧
      notify_status (notify_transaction true (some kvs)) = 200) ∧
    (["user_id", "type", "amount", "status"].filter
        (fun f => (dictGet f kvs).isNone) ≠ [] →
      notify_transaction true (some kvs) =
        NotifyResp.missingFields
          (["user_id", "type", "amount", "status"].filter
            (fun f => (dictGet f kvs).isNone)) ∧
      notify_status (notify_transaction true (some kvs)) = 400) := by
  have hred : notify_transaction true (some kvs) =
      (if ["user_id", "type", "amount", "status"].filter
          (fun f => (dictGet f kvs).isNone) = [] then NotifyResp.ok
        else NotifyResp.missingFields
          (["user_id", "type", "amount", "status"].filter
            (fun f => (dictGet f kvs).isNone))) := by
    show (if kvs = [] then NotifyResp.noData
        else
          if ["user_id", "type", "amount", "status"].filter
              (fun f => (dictGet f kvs).isNone) = [] then NotifyResp.ok
          else NotifyResp.missingFields
            (["user_id", "type", "amount", "status"].filter
              (fun f => (dictGet f kvs).isNone))) = _
    rw [if_neg hne]
  constructor
  · intro hall
    have hfil : ["user_id", "type", "amount", "status"].filter
        (fun f => (dictGet f kvs).isNone) = [] := by
      rw [List.filter_eq_nil_iff]
      intro f hf
      intro h2
      have h1 := (List.all_eq_true.mp hall) f hf
      rw [Option.isNone_iff_eq_none] at h2
      rw [h2] at h1
      simp at h1
    rw [hred, if_pos hfil]
    exact ⟨rfl, rfl⟩
  · intro hm
    rw [hred, if_neg hm]
    exact ⟨rfl, rfl⟩

/-- Witness for C8 at two concrete bodies: one with all four fields
(200 ok) and one non-empty body missing three of them (400 naming
them). -/
theorem notify_transaction_contract_witness :
    notify_transaction true (some [("user_id", "1"), ("type", "addfund"),
      ("amount", "10"), ("status", "success")]) = NotifyResp.ok ∧
    notify_transaction true (some [("user_id", "1")]) =
      NotifyResp.missingFields ["type", "amount", "status"] := by
  constructor
  · exact ((notify_transaction_contract [("user_id", "1"),
      ("type", "addfund"), ("amount", "10"), ("status", "success")]
      (by simp)).1 (by decide)).1
  · have h := (notify_transaction_contract [("user_id", "1")]
      (by simp)).2 (by decide)
    simpa using h.1

/-- C9: redeeming a connect code consumes it before the backend save is
attempted: when `/start` finds the code, it pops it and, even though
the save fails (so the user is told to try again), a second `/start`
with the same code at any later time is rejected as expired or already
used. -/
theorem connect_code_consumed_before_save (now now2 : ℚ) (code : String)
    (pending : List (String × Connect)) (entry : Connect) (saveOk2 : Bool)
    (hnd : keysNodup pending)
    (hget : dictGet code (cleanup_old_codes now pending) = some entry) :
    (start now (some code) pending false).1 = .connectionFailed ∧
    (start now2 (some code) (start now (some code) pending false).2
        saveOk2).1 = .expiredOrUsed := by
  have hstate : start now (some code) pending false =
      (.connectionFailed, dictErase code (cleanup_old_codes now pending)) := by
    simp [start, hget]
  have hnd2 : keysNodup (cleanup_old_codes now pending) :=
    keysNodup_filter _ _ hnd
  have h1 : dictGet code (dictErase code (cleanup_old_codes now pending)) =
      none := dictGet_erase_self code _ hnd2
  have h2 : dictGet code (cleanup_old_codes now2
      (dictErase code (cleanup_old_codes now pending))) = none :=
    dictGet_none_filter code _ _ h1
  constructor
  · rw [hstate]
  · rw [hstate]
    simp [start, h2]

/-- Concrete connect-code entry created at time 5 (used as a test
vector). -/
def connectFresh : Connect :=
  { user_id := "u5", xid := "X5", created_at := 5 }

/-- Witness for C9 at a concrete fresh code: the failed save consumes
the code and the retry is rejected. -/
theorem connect_code_consumed_before_save_witness :
    (start 10 (some "abc") [("abc", connectFresh)] false).1 =
      .connectionFailed ∧
    (start 20 (some "abc") (start 10 (some "abc") [("abc", connectFresh)]
        false).2 true).1 = .expiredOrUsed := by
  exact connect_code_consumed_before_save 10 20 "abc" [("abc", connectFresh)]
    connectFresh true (by simp [keysNodup])
    (by norm_num [cleanup_old_codes, connectFresh, dictGet, List.filter])

/-- C10: POSTing `/start_deposit_session` for a `request_id` that
already has a session unconditionally replaces it: the stored entry
becomes the freshly built record, whose `matched` flag is `false` and
whose `expires_at` is 300 seconds from now, regardless of the old
session's state. -/
theorem deposit_session_replaced_unconditionally (now : ℚ)
    (rid uid xid : String) (amt : ℚ) (tid : Option String)
    (sessions : List (String × Session)) (old : Session)
    (hold : dictGet rid sessions = some old) :
    (start_deposit_session true now
        (some ⟨some rid, some uid, some xid, some amt, tid⟩) sessions).1 =
      .ok 300 ∧
    dictGet rid (start_deposit_session true now
        (some ⟨some rid, some uid, some xid, some amt, tid⟩) sessions).2 =
      some (new_deposit_session now uid xid amt tid) ∧
    (new_deposit_session now uid xid amt tid).matched = false ∧
    (new_deposit_session now uid xid amt tid).expires_at = now + 300 := by
  refine ⟨rfl, ?_, rfl, rfl⟩
  exact dictGet_insert_self rid _ sessions

/-- Witness for C10 at a concrete already-matched old session: the
entry is replaced by the fresh unmatched record. -/
theorem deposit_session_replaced_unconditionally_witness :
    dictGet "r1" (start_deposit_session true 50
        (some ⟨some "r1", some "u9", some "X9", some 20, none⟩)
        [("r1", sessionMatched)]).2 =
      some (new_deposit_session 50 "u9" "X9" 20 none) := by
  exact (deposit_session_replaced_unconditionally 50 "r1" "u9" "X9" 20 none
    [("r1", sessionMatched)] sessionMatched rfl).2.1

end XeoWallet
